import Mathlib

/-!
Verification of the store-provisioning platform backend
(`backend/services/store_service.py`, `backend/services/k8s_service.py`,
`backend/workers/provisioning.py`, `backend/api/stores.py`).

The Python code is shallowly embedded: the SQLAlchemy-backed repository
becomes a `List Store` passed and returned explicitly; the wall clock is an
explicit `now : Nat` argument; randomness (uuid suffix, generated passwords)
is passed in as arguments; the Kubernetes API is an explicit environment
value describing what each read returns; exceptions become `Except` /
explicit outcome constructors.  Statuses are strings, exactly as in the
source (the source stores them as strings and performs no validation).
-/

namespace StorePlatform

/-- A row of the `stores` table (`backend/models/store.py`).  `namespace` is a
Lean keyword, so the column is called `nspace` here; timestamps are modelled
as abstract `Nat` instants. -/
structure Store where
  id : String
  name : String
  engine : String
  nspace : String
  helm_release : String
  status : String
  failure_reason : Option String
  store_url : Option String
  db_root_password : String
  db_name : String
  db_username : String
  db_password : String
  admin_username : String
  admin_password : String
  admin_email : String
  created_at : Nat
  updated_at : Nat
deriving Repr, DecidableEq

/-- The repository: the rows of the `stores` table, in insertion order. -/
abbrev Repo := List Store

/-- `session.query(Store).filter_by(id=store_id).first()`. -/
def findById (repo : Repo) (store_id : String) : Option Store :=
  repo.find? (fun s => s.id == store_id)

/-- `session.query(Store).filter_by(name=name).first()`. -/
def findByName (repo : Repo) (name : String) : Option Store :=
  repo.find? (fun s => s.name == name)

/-- Python truthiness of an optional-string argument (`if failure_reason:`):
`None` and the empty string are falsy. -/
def optTruthy : Option String → Bool
  | none => false
  | some s => s != ""

/-- Python `s.strip()`: remove leading and trailing whitespace
(structural on the character list so it computes in the kernel). -/
def pyStrip (s : String) : String :=
  ⟨(((s.data.dropWhile Char.isWhitespace).reverse).dropWhile Char.isWhitespace).reverse⟩

/-- Python `name.replace('-', '_')` — single-character replacement. -/
def replaceDashUnderscore (s : String) : String :=
  ⟨s.data.map (fun c => if c == '-' then '_' else c)⟩

/-- The row mutation `update_store_status` performs on the matching row
(store_service.py lines 240-247): the requested status is written
unconditionally, `updated_at` is refreshed, and `failure_reason` /
`store_url` are overwritten only when the supplied value is truthy
(`if failure_reason:` / `if store_url:`). -/
def applyStatusUpdate (status : String) (failure_reason store_url : Option String)
    (now : Nat) (s : Store) : Store :=
  { s with
    status := status
    updated_at := now
    failure_reason := if optTruthy failure_reason then failure_reason else s.failure_reason
    store_url := if optTruthy store_url then store_url else s.store_url }

/-- `StoreService.update_store_status` (store_service.py lines 210-258),
applying `applyStatusUpdate` to the matching row. -/
def update_store_status (repo : Repo) (store_id status : String)
    (failure_reason : Option String := none) (store_url : Option String := none)
    (now : Nat := 0) : Repo × Bool :=
  match findById repo store_id with
  | none => (repo, false)
  | some _ =>
    (repo.map (fun s =>
      if s.id == store_id then applyStatusUpdate status failure_reason store_url now s
      else s), true)

/-- `StoreService.mark_store_deleting`. -/
def mark_store_deleting (repo : Repo) (store_id : String) (now : Nat) : Repo × Bool :=
  update_store_status repo store_id "DELETING" none none now

/-- `StoreService.mark_store_deleted`. -/
def mark_store_deleted (repo : Repo) (store_id : String) (now : Nat) : Repo × Bool :=
  update_store_status repo store_id "DELETED" none none now

/-- `StoreService.create_store` (store_service.py lines 52-152).  The random
inputs (`uuid.uuid4().hex[:8]` and the two generated passwords) are passed
explicitly.  Validation order, the trimming, the uniqueness check over the
whole table (`filter_by(name=name)`, no status filter) and the constructed
row follow the source. -/
def create_store (repo : Repo)
    (name engine admin_username admin_password admin_email : String)
    (uuid_hex8 gen_db_root_password gen_db_password : String)
    (now : Nat) : Except String (Store × Repo) :=
  if engine != "woocommerce" && engine != "medusa" then
    .error ("Invalid engine '" ++ engine ++ "'. Must be one of: ['woocommerce', 'medusa']")
  else if pyStrip name == "" then
    .error "Store name cannot be empty"
  else
    let name := pyStrip name
    if pyStrip admin_username == "" then
      .error "Admin username cannot be empty"
    else if pyStrip admin_password == "" then
      .error "Admin password cannot be empty"
    else if pyStrip admin_email == "" then
      .error "Admin email cannot be empty"
    else
      let admin_username := pyStrip admin_username
      let admin_password := pyStrip admin_password
      let admin_email := pyStrip admin_email
      match findByName repo name with
      | some _ =>
        .error ("Store with name '" ++ name ++ "' already exists")
      | none =>
        let store_id := name ++ "-" ++ uuid_hex8
        let nspace := "store-" ++ store_id
        let helm_release := store_id
        let store : Store :=
          { id := store_id
            name := name
            engine := engine
            nspace := nspace
            helm_release := helm_release
            status := "PROVISIONING"
            failure_reason := none
            store_url := none
            db_root_password := gen_db_root_password
            db_name := "store_" ++ (replaceDashUnderscore name) ++ "_db"
            db_username := "user_" ++ (replaceDashUnderscore name)
            db_password := gen_db_password
            admin_username := admin_username
            admin_password := admin_password
            admin_email := admin_email
            created_at := now
            updated_at := now }
        .ok (store, repo ++ [store])

/-! ## Cluster reader and readiness classifier (`backend/services/k8s_service.py`) -/

/-- The state of a container (`container.state`): exactly one of `running`,
`waiting(reason)`, `terminated(exit_code)` is set on a Kubernetes container
status, which the source inspects in that shape. -/
inductive CState where
  | running
  | waiting (reason : String)
  | terminated (exit_code : Int)
deriving Repr, DecidableEq

/-- One entry of `pod.status.container_statuses`. -/
structure ContainerStatus where
  ready : Bool
  restart_count : Nat
  state : CState
deriving Repr, DecidableEq

/-- A pod as the source reads it: `pod.metadata.name`,
`pod.status.phase`, `pod.status.container_statuses`. -/
structure Pod where
  name : String
  phase : String
  container_statuses : List ContainerStatus
deriving Repr, DecidableEq

/-- Whether `sub` is a prefix of `l` (structural, kernel-computable). -/
def startsWithChars : List Char → List Char → Bool
  | _, [] => true
  | [], _ :: _ => false
  | c :: cs, d :: ds => c == d && startsWithChars cs ds

/-- Whether `sub` occurs inside `l`. -/
def hasSubChars : List Char → List Char → Bool
  | [], sub => sub.isEmpty
  | c :: cs, sub => startsWithChars (c :: cs) sub || hasSubChars cs sub

/-- Python `sub in s` (substring containment). -/
def containsSub (s sub : String) : Bool :=
  hasSubChars s.data sub.data

/-- The mutable locals of the loop body of `K8sService.check_pods_ready`
(k8s_service.py lines 80-84): `mysql_ready`, `wordpress_ready`,
`setup_job_completed` are only ever set to `True`, `failure_reason` is
overwritten whenever a branch assigns it, `pod_statuses` is appended to. -/
structure PodScan where
  mysql_ready : Bool
  wordpress_ready : Bool
  setup_job_completed : Bool
  failure_reason : Option String
  pod_statuses : List String
deriving Repr, DecidableEq

/-- What one iteration of the pod loop assigns: which readiness flags it sets,
which failure reason it writes (if any), which status lines it appends. -/
structure Contrib where
  mysql_ready : Bool := false
  wordpress_ready : Bool := false
  setup_job_completed : Bool := false
  failure : Option String := none
  statuses : List String := []
deriving Repr, DecidableEq

/-- The body of the `for pod in pods.items` loop of
`K8sService.check_pods_ready` (k8s_service.py lines 86-167), expressed as the
assignments the iteration performs for one pod.  The branch structure — the
name-substring dispatch, the `Running and ready_count == total_containers`
test, the `Pending` case, the inspection of the first container status only,
the waiting-reason triage and the terminated cases — follows the source line
by line. -/
def podContrib (pod : Pod) : Contrib :=
  let name := pod.name
  let status := pod.phase
  let total_containers := pod.container_statuses.length
  let ready_count := (pod.container_statuses.filter (fun c => c.ready)).length
  let restarts := (pod.container_statuses.map (fun c => c.restart_count)).sum
  if containsSub name "mysql" then
    if status == "Running" && ready_count == total_containers then
      { mysql_ready := true, statuses := [name ++ ": Ready (1/1)"] }
    else if status == "Pending" then
      { statuses := [name ++ ": Pending"] }
    else
      match pod.container_statuses with
      | [] => {}
      | container :: _ =>
        match container.state with
        | .waiting reason =>
          if reason == "ImagePullBackOff" || reason == "ErrImagePull" then
            { failure := some ("MySQL: " ++ reason) }
          else if reason == "CrashLoopBackOff" then
            { failure := some "MySQL: CrashLoopBackOff" }
          else
            { statuses := [name ++ ": " ++ reason] }
        | .terminated _ => { failure := some "MySQL: Container terminated" }
        | .running => {}
  else if containsSub name "wordpress" then
    if status == "Running" && ready_count == total_containers then
      { wordpress_ready := true, statuses := [name ++ ": Ready (1/1)"] }
    else if status == "Pending" then
      { statuses := [name ++ ": Pending"] }
    else
      match pod.container_statuses with
      | [] => {}
      | container :: _ =>
        match container.state with
        | .waiting reason =>
          if reason == "ImagePullBackOff" || reason == "ErrImagePull" then
            { failure := some ("WordPress: " ++ reason) }
          else if reason == "CrashLoopBackOff" then
            { failure := some ("WordPress: CrashLoopBackOff (Restarts: " ++ toString restarts ++ ")") }
          else
            { statuses := [name ++ ": " ++ reason] }
        | .terminated _ => { failure := some "WordPress: Container terminated" }
        | .running => {}
  else if containsSub name "woocommerce-setup" then
    match pod.container_statuses with
    | [] => {}
    | container :: _ =>
      match container.state with
      | .terminated exit_code =>
        if exit_code == 0 then
          { setup_job_completed := true, statuses := [name ++ ": Completed"] }
        else
          { failure := some ("Setup job failed with exit code " ++ toString exit_code) }
      | .running => { statuses := [name ++ ": Running (0/1)"] }
      | .waiting reason => { statuses := [name ++ ": " ++ reason] }
  else {}

/-- Merging one iteration's assignments into the loop state: the readiness
flags are only ever raised, a written failure reason overwrites the previous
value, status lines accumulate. -/
def scanStep (acc : PodScan) (pod : Pod) : PodScan :=
  let c := podContrib pod
  { mysql_ready := acc.mysql_ready || c.mysql_ready
    wordpress_ready := acc.wordpress_ready || c.wordpress_ready
    setup_job_completed := acc.setup_job_completed || c.setup_job_completed
    failure_reason := match c.failure with
      | some f => some f
      | none => acc.failure_reason
    pod_statuses := acc.pod_statuses ++ c.statuses }

/-- The initial loop state (k8s_service.py lines 80-84). -/
def podScanInit : PodScan :=
  { mysql_ready := false, wordpress_ready := false, setup_job_completed := false
    failure_reason := none, pod_statuses := [] }

/-- `K8sService.check_pods_ready` on a successfully fetched pod list
(k8s_service.py lines 78-175): the loop over the pods, then
`all_ready = mysql_ready and wordpress_ready and setup_job_completed`,
returned as `(all_ready, status_msg, failure_reason)`. -/
def check_pods_ready_pods (pods : List Pod) : Bool × String × Option String :=
  let scan := pods.foldl scanStep podScanInit
  let status_msg := String.intercalate " | " scan.pod_statuses
  let all_ready := scan.mysql_ready && scan.wordpress_ready && scan.setup_job_completed
  (all_ready, status_msg, scan.failure_reason)

/-- The outcome of one Kubernetes API read: success, a 404 `ApiException`,
or an `ApiException` with any other status (carrying `e.reason`). -/
inductive K8sResult (α : Type) where
  | ok (val : α)
  | notFound
  | apiError (reason : String)
deriving Repr, DecidableEq

/-- What the ingress read can see: the rule hosts and whether `spec.tls`
is set (truthy). -/
structure IngressSpec where
  rule_hosts : List String
  tls : Bool
deriving Repr, DecidableEq

/-- The cluster as one readiness poll observes it: what the namespace read,
the pod list and the ingress read return. -/
structure ClusterEnv where
  namespace_read : K8sResult Unit
  pod_list : K8sResult (List Pod)
  ingress_read : K8sResult IngressSpec
deriving Repr, DecidableEq

/-- `K8sService.check_namespace_exists` (k8s_service.py lines 51-68): `True`
on success, `False` on a 404, and the `ApiException` is re-raised (modelled
as `Except.error`) on any other status. -/
def check_namespace_exists (read : K8sResult Unit) : Except String Bool :=
  match read with
  | .ok _ => .ok true
  | .notFound => .ok false
  | .apiError reason => .error reason

/-- `K8sService.check_pods_ready` including its exception handler
(k8s_service.py lines 177-181): a 404 on the pod list yields
`(False, "Namespace ... not found", None)`, any other `ApiException` yields
`(False, "API error: ...", None)` — both in-progress, not failed. -/
def check_pods_ready (read : K8sResult (List Pod)) (nspace : String) :
    Bool × String × Option String :=
  match read with
  | .ok pods => check_pods_ready_pods pods
  | .notFound => (false, "Namespace " ++ nspace ++ " not found", none)
  | .apiError reason => (false, "API error: " ++ reason, none)

/-- `K8sService.get_ingress_url` (k8s_service.py lines 183-219): first rule
host with `https` when TLS is configured, `None` when there are no rules, on
a 404, or on any other `ApiException` (both are caught). -/
def get_ingress_url (read : K8sResult IngressSpec) : Option String :=
  match read with
  | .ok ingress =>
    match ingress.rule_hosts with
    | [] => none
    | host :: _ =>
      let protocol := if ingress.tls then "https" else "http"
      some (protocol ++ "://" ++ host)
  | .notFound => none
  | .apiError _ => none

/-- `K8sService.check_store_ready` (k8s_service.py lines 221-255): namespace
existence (whose non-404 errors propagate), then the pod check; a truthy
failure reason is returned as a permanent failure, otherwise not-all-ready is
in-progress, otherwise the store is reported ready with whatever
`get_ingress_url` returned (possibly `None`). -/
def check_store_ready (env : ClusterEnv) (nspace ingress_name : String) :
    Except String (Bool × Option String × Option String) :=
  match check_namespace_exists env.namespace_read with
  | .error e => .error e
  | .ok ns_exists =>
    if !ns_exists then
      .ok (false, none, some ("Namespace " ++ nspace ++ " does not exist"))
    else
      let res := check_pods_ready env.pod_list nspace
      let all_ready := res.1
      let failure_reason := res.2.2
      if optTruthy failure_reason then
        .ok (false, none, failure_reason)
      else if !all_ready then
        .ok (false, none, none)
      else
        let store_url := get_ingress_url env.ingress_read
        .ok (true, store_url, none)

/-! ## Provisioning worker (`backend/workers/provisioning.py`) -/

/-- The configuration values the worker reads (`backend/config.py`). -/
structure WorkerConfig where
  provisioning_timeout_seconds : Nat
  poll_interval_seconds : Nat
deriving Repr, DecidableEq

/-- The external world one `_provision_store` task interacts with: the Helm
status read, the Helm install outcome, the cluster state at each poll
iteration, and how many loop iterations pass the elapsed-time check before
`elapsed > PROVISIONING_TIMEOUT_SECONDS` holds (the wall clock, made
explicit). -/
structure ProvisionEnv where
  helm_status : Option String
  install_ok : Bool
  install_output : String
  checks : Nat → ClusterEnv
  polls_before_timeout : Nat

/-- The `while True` readiness loop of `ProvisioningWorker._provision_store`
(provisioning.py lines 235-276).  `fuel` counts the iterations whose
timeout check still passes; at `0` the timeout branch commits `FAILED`.  A
raise out of `check_store_ready` leaves the loop as `Except.error` (handled
by the task-level handler in `provision_store`). -/
def readinessLoop (cfg : WorkerConfig) (repo : Repo) (store_id nspace ingress_name : String)
    (checks : Nat → ClusterEnv) (k : Nat) (fuel : Nat) (now : Nat) :
    Except String Repo :=
  match fuel with
  | 0 =>
    .ok (update_store_status repo store_id "FAILED"
      (some ("Provisioning timed out after "
        ++ toString cfg.provisioning_timeout_seconds ++ " seconds")) none now).1
  | fuel + 1 =>
    match check_store_ready (checks k) nspace ingress_name with
    | .error e => .error e
    | .ok (ready, store_url, failure_reason) =>
      if ready then
        .ok (update_store_status repo store_id "READY" none store_url now).1
      else if optTruthy failure_reason then
        .ok (update_store_status repo store_id "FAILED" failure_reason none now).1
      else
        readinessLoop cfg repo store_id nspace ingress_name checks (k + 1) fuel now

/-- `ProvisioningWorker._provision_store` (provisioning.py lines 165-286):
load the store (absent: return), skip unless status is `PROVISIONING`,
install via Helm when no release exists (commit `FAILED` on install
failure), then run the readiness loop; any exception escaping the `try`
block is caught and committed as
`FAILED, "Unexpected error during provisioning: ..."`. -/
def provision_store (cfg : WorkerConfig) (repo : Repo) (store_id : String)
    (env : ProvisionEnv) (now : Nat) : Repo :=
  match findById repo store_id with
  | none => repo
  | some store =>
    if store.status != "PROVISIONING" then repo
    else
      let ingress_name := store.helm_release ++ "-ingress"
      let body : Except String Repo :=
        match env.helm_status with
        | none =>
          if !env.install_ok then
            .ok (update_store_status repo store_id "FAILED"
              (some ("Helm install failed: " ++ env.install_output)) none now).1
          else
            readinessLoop cfg repo store_id store.nspace ingress_name
              env.checks 0 env.polls_before_timeout now
        | some _ =>
          readinessLoop cfg repo store_id store.nspace ingress_name
            env.checks 0 env.polls_before_timeout now
      match body with
      | .ok repo2 => repo2
      | .error e =>
        (update_store_status repo store_id "FAILED"
          (some ("Unexpected error during provisioning: " ++ e)) none now).1

/-! ## DELETE /stores/id handler (`backend/api/stores.py` lines 219-284) -/

/-- What the handler's surroundings may do: whether `get_store_by_id` raises
(a session failure), whether `mark_store_deleting` raises before touching the
row (its session acquisition sits outside its `try`), and what
`HelmService.uninstall` returns (it catches all its own exceptions, so it
never raises). -/
structure DeleteEnv where
  lookup_raises : Option String
  mark_deleting_raises : Option String
  uninstall_result : Bool × String
deriving Repr, DecidableEq

/-- The handler's possible outcomes: the HTTP responses it builds, or an
exception escaping the handler itself. -/
inductive DeleteOutcome where
  | notFoundResp
  | alreadyDeletedResp
  | deletedResp (store_id : String)
  | uninstallFailedResp (details : String)
  | exceptResp (details : String)
  | unboundNameError
deriving Repr, DecidableEq

/-- The `except Exception` branch of `StoreResource.delete` (stores.py lines
279-284).  Its response body references the local variable `output`;
`output_bound` is the binding state of that variable when the exception is
caught.  When `output` was never bound, evaluating the body raises
`NameError` — the branch itself raises instead of returning the 500
response. -/
def delete_except_branch (output_bound : Option String) : DeleteOutcome :=
  match output_bound with
  | some output => .exceptResp output
  | none => .unboundNameError

/-- `StoreResource.delete` (stores.py lines 219-284): lookup, the
already-DELETED guard, `mark_store_deleting`, the synchronous Helm
uninstall, then `mark_store_deleted` on success or an update to `FAILED`
on uninstall failure.  An exception raised before the
`success, output = _helm_service.uninstall(...)` assignment reaches the
`except` branch with `output` unbound. -/
def delete_handler (repo : Repo) (store_id : String) (env : DeleteEnv) (now : Nat) :
    Repo × DeleteOutcome :=
  match env.lookup_raises with
  | some _ => (repo, delete_except_branch none)
  | none =>
    match findById repo store_id with
    | none => (repo, .notFoundResp)
    | some store =>
      if store.status == "DELETED" then (repo, .alreadyDeletedResp)
      else
        match env.mark_deleting_raises with
        | some _ => (repo, delete_except_branch none)
        | none =>
          let repo1 := (mark_store_deleting repo store_id now).1
          let success := env.uninstall_result.1
          let output := env.uninstall_result.2
          if success then
            ((mark_store_deleted repo1 store_id now).1, .deletedResp store_id)
          else
            ((update_store_status repo1 store_id "FAILED"
                (some ("Delete failed: " ++ output)) none now).1,
             .uninstallFailedResp output)

/-! ## Concrete fixtures (used by the witnesses and counterexamples) -/

/-- A store row as `create_store "shop1" ...` builds it (uuid suffix
`abcd1234`), in the state it has right after creation. -/
def exStore : Store :=
  { id := "shop1-abcd1234", name := "shop1", engine := "woocommerce",
    nspace := "store-shop1-abcd1234", helm_release := "shop1-abcd1234",
    status := "PROVISIONING", failure_reason := none, store_url := none,
    db_root_password := "rootpw", db_name := "store_shop1_db",
    db_username := "user_shop1", db_password := "dbpw",
    admin_username := "admin", admin_password := "pw", admin_email := "a@x",
    created_at := 0, updated_at := 0 }

/-- The same row once provisioning has committed `READY`. -/
def readyStore : Store := { exStore with status := "READY", store_url := some "http://x" }

/-- The same row once deletion has committed `DELETED`. -/
def deletedStore : Store := { exStore with status := "DELETED" }

def mysqlFailPod : Pod := ⟨"mysql-0", "Running", [⟨false, 3, .waiting "CrashLoopBackOff"⟩]⟩

def wpFailPod : Pod := ⟨"wordpress-abc", "Running", [⟨false, 4, .waiting "CrashLoopBackOff"⟩]⟩

def mysqlOkPod : Pod := ⟨"mysql-0", "Running", [⟨true, 0, .running⟩]⟩

def wpOkPod : Pod := ⟨"wordpress-abc", "Running", [⟨true, 0, .running⟩]⟩

def setupOkPod : Pod := ⟨"woocommerce-setup-xyz", "Succeeded", [⟨false, 0, .terminated 0⟩]⟩

/-- A database pod whose only container terminated with exit code 0. -/
def mysqlTermPod : Pod := ⟨"mysql-0", "Succeeded", [⟨false, 0, .terminated 0⟩]⟩

/-- The default configuration (config.py): timeout 600 s, poll 5 s. -/
def cfg0 : WorkerConfig := ⟨600, 5⟩

/-- All three roles satisfy their success predicates, the ingress read
returns 404. -/
def readyNoIngressEnv : ClusterEnv := ⟨.ok (), .ok [mysqlOkPod, wpOkPod, setupOkPod], .notFound⟩

def provEnvNoIngress : ProvisionEnv := ⟨some "deployed", true, "", fun _ => readyNoIngressEnv, 5⟩

/-- The namespace read fails with a non-404 `ApiException`. -/
def apiErrEnv : ClusterEnv := ⟨.apiError "(500) internal", .ok [], .notFound⟩

def provEnvApiErr : ProvisionEnv := ⟨some "deployed", true, "", fun _ => apiErrEnv, 5⟩

/-- The namespace does not exist (404 on the namespace read). -/
def nsMissingEnv : ClusterEnv := ⟨.notFound, .ok [], .notFound⟩

def provEnvNsMissing : ProvisionEnv := ⟨some "deployed", true, "", fun _ => nsMissingEnv, 5⟩

/-- The repository produced by a concrete `create_store` call. -/
def repoC : Repo :=
  match create_store [] "shop1" "woocommerce" "admin" "pw" "a@x" "abcd1234" "rootpw" "dbpw" 0 with
  | .ok (_, repo) => repo
  | .error _ => []

/-- `repoC` after the reconciler commits `FAILED` with a reason. -/
def repoCF : Repo :=
  (update_store_status repoC "shop1-abcd1234" "FAILED" (some "CrashLoopBackOff") none 1).1

/-- `repoCF` after the delete path marks the store `DELETING`. -/
def repoCD : Repo := (mark_store_deleting repoCF "shop1-abcd1234" 2).1

/-- The failure-overwriting step of the pod loop, restricted to the
`failure_reason` variable: a pod that assigns a failure overwrites the
accumulator, any other pod leaves it. -/
def overwriteFailure (fr : Option String) (pod : Pod) : Option String :=
  match (podContrib pod).failure with
  | some f => some f
  | none => fr

/-! ## Helper lemmas -/

lemma append_ne_empty (s t : String) (h : s ≠ "") : s ++ t ≠ "" := by
  obtain ⟨sd⟩ := s
  obtain ⟨td⟩ := t
  intro he
  apply h
  have h2 : sd ++ td = ([] : List Char) := congrArg String.data he
  rcases List.append_eq_nil.mp h2 with ⟨h1, _⟩
  subst h1
  rfl

lemma optTruthy_some_of_ne (s : String) (h : s ≠ "") : optTruthy (some s) = true := by
  simp only [optTruthy, bne_iff_ne, ne_eq]
  exact h

/-- `findById` after the per-row conditional update that
`update_store_status` performs. -/
lemma findById_map_update (repo : Repo) (store_id : String) (f : Store → Store)
    (hf : ∀ s, (f s).id = s.id) :
    findById (repo.map (fun s => if s.id == store_id then f s else s)) store_id
      = Option.map f (findById repo store_id) := by
  induction repo with
  | nil => rfl
  | cons a l ih =>
    cases ha : a.id == store_id with
    | true =>
      have h1 : ((fun s : Store => s.id == store_id) (if (a.id == store_id) = true then f a else a)) = true := by
        simp only [ha, if_true]
        rw [hf a]
        exact ha
      have e1 := @List.find?_cons_of_pos Store (fun s : Store => s.id == store_id)
        (if (a.id == store_id) = true then f a else a)
        (List.map (fun s => if (s.id == store_id) = true then f s else s) l) h1
      have e2 := @List.find?_cons_of_pos Store (fun s : Store => s.id == store_id) a l ha
      unfold findById
      rw [List.map_cons, e1, e2, if_pos ha]
      rfl
    | false =>
      have h1 : ¬ ((fun s : Store => s.id == store_id) (if (a.id == store_id) = true then f a else a) = true) := by
        simp [ha]
      have h2 : ¬ ((fun s : Store => s.id == store_id) a = true) := by
        simp [ha]
      have e1 := @List.find?_cons_of_neg Store (fun s : Store => s.id == store_id)
        (if (a.id == store_id) = true then f a else a)
        (List.map (fun s => if (s.id == store_id) = true then f s else s) l) h1
      have e2 := @List.find?_cons_of_neg Store (fun s : Store => s.id == store_id) a l h2
      unfold findById
      rw [List.map_cons, e1, e2]
      exact ih

/-- The loop state's `failure_reason` is the fold of `overwriteFailure`
over the pods. -/
lemma scan_failure_foldl (pods : List Pod) (acc : PodScan) :
    (pods.foldl scanStep acc).failure_reason
      = pods.foldl overwriteFailure acc.failure_reason := by
  induction pods generalizing acc with
  | nil => rfl
  | cons p ps ih =>
    rw [List.foldl_cons, List.foldl_cons, ih]
    rfl

/-- Pods that assign no failure leave the accumulated reason unchanged. -/
lemma foldl_overwrite_none (ys : List Pod)
    (hys : ∀ q ∈ ys, (podContrib q).failure = none) (acc : Option String) :
    ys.foldl overwriteFailure acc = acc := by
  induction ys generalizing acc with
  | nil => rfl
  | cons q ys ih =>
    rw [List.foldl_cons]
    have hq := hys q (List.mem_cons_self q ys)
    have hstep : overwriteFailure acc q = acc := by
      unfold overwriteFailure
      rw [hq]
    rw [hstep]
    exact ih (fun r hr => hys r (List.mem_cons_of_mem q hr)) acc

/-! ## Claim theorems -/

/-- C1 (counterexample): `update_store_status` accepts the transition
`READY -> PROVISIONING`, which is not an edge of the permitted graph, and
mutates the record, contradicting the claim that such an update is refused
with the record unchanged. -/
theorem update_status_ready_to_provisioning_accepted :
    readyStore.status = "READY" ∧
    (update_store_status [readyStore] "shop1-abcd1234" "PROVISIONING" none none 9).2 = true ∧
    (update_store_status [readyStore] "shop1-abcd1234" "PROVISIONING" none none 9).1.map
        Store.status = ["PROVISIONING"] :=
  ⟨rfl, rfl, rfl⟩

/-- C1 (amended): `update_store_status` performs no transition validation.
For an absent id it returns `False` (NotFound) with the repository
unchanged; for an existing record it unconditionally writes the requested
status — whatever the current one — refreshes `updated_at`, and overwrites
`failure_reason` / `store_url` only when truthy values are supplied. -/
theorem update_store_status_unvalidated (repo : Repo) (store_id status : String)
    (failure_reason store_url : Option String) (now : Nat) :
    (findById repo store_id = none →
      update_store_status repo store_id status failure_reason store_url now = (repo, false)) ∧
    ∀ store, findById repo store_id = some store →
      (update_store_status repo store_id status failure_reason store_url now).2 = true ∧
      findById (update_store_status repo store_id status failure_reason store_url now).1 store_id
        = some (applyStatusUpdate status failure_reason store_url now store) ∧
      (applyStatusUpdate status failure_reason store_url now store).status = status := by
  constructor
  · intro h
    unfold update_store_status
    rw [h]
  · intro store h
    refine ⟨?_, ?_, rfl⟩
    · unfold update_store_status
      rw [h]
    · unfold update_store_status
      rw [h]
      have hmap := findById_map_update repo store_id
        (applyStatusUpdate status failure_reason store_url now) (fun s => rfl)
      rw [h] at hmap
      exact hmap.trans rfl

/-- C1 (witness): the amended theorem applied to a one-row repository whose
record is `READY`, updated to `PROVISIONING`. -/
theorem update_store_status_unvalidated_witness :
    findById (update_store_status [readyStore] "shop1-abcd1234" "PROVISIONING" none none 9).1
        "shop1-abcd1234"
      = some (applyStatusUpdate "PROVISIONING" none none 9 readyStore) :=
  ((update_store_status_unvalidated [readyStore] "shop1-abcd1234" "PROVISIONING"
      none none 9).2 readyStore rfl).2.1

/-- C3 (counterexample): starting from a freshly created store, committing
`FAILED` with a reason and then marking the store `DELETING` (the first step
of the delete path) leaves a record whose status is `DELETING` while
`failure_reason` is still non-null — the claimed invariant
`failure_reason` non-null iff `status = FAILED` is violated by this
reachable state. -/
theorem stale_failure_reason_after_deleting :
    repoCD.map (fun s => (s.status, s.failure_reason))
      = [("DELETING", some "CrashLoopBackOff")] := rfl

/-- C3 (amended): `update_store_status` never clears `failure_reason` — it
only overwrites it when a truthy value is supplied — so marking a `FAILED`
record `DELETING` keeps the old reason: the record becomes non-`FAILED`
with a stale non-null `failure_reason`. -/
theorem failure_reason_persists_on_deleting (repo : Repo) (store_id : String)
    (store : Store) (r : String) (now : Nat)
    (h : findById repo store_id = some store)
    (hr : store.failure_reason = some r) :
    findById (mark_store_deleting repo store_id now).1 store_id
      = some (applyStatusUpdate "DELETING" none none now store) ∧
    (applyStatusUpdate "DELETING" none none now store).status = "DELETING" ∧
    (applyStatusUpdate "DELETING" none none now store).failure_reason = some r := by
  refine ⟨?_, rfl, hr⟩
  unfold mark_store_deleting update_store_status
  rw [h]
  have hmap := findById_map_update repo store_id
    (applyStatusUpdate "DELETING" none none now) (fun s => rfl)
  rw [h] at hmap
  exact hmap.trans rfl

/-- C3 (witness): the amended theorem applied to the concrete repository
`repoCF`, whose record is `FAILED` with reason `"CrashLoopBackOff"`. -/
theorem failure_reason_persists_on_deleting_witness :
    findById (mark_store_deleting repoCF "shop1-abcd1234" 2).1 "shop1-abcd1234"
      = some (applyStatusUpdate "DELETING" none none 2
          (applyStatusUpdate "FAILED" (some "CrashLoopBackOff") none 1 exStore)) :=
  (failure_reason_persists_on_deleting repoCF "shop1-abcd1234"
      (applyStatusUpdate "FAILED" (some "CrashLoopBackOff") none 1 exStore)
      "CrashLoopBackOff" 2 rfl rfl).1

/-- C5 (counterexample): a database pod whose only container terminated
with exit code 0 yields the failure reason `"MySQL: Container terminated"`
— the classifier treats it as a permanent failure although the exit code
is zero, contradicting the claim. -/
theorem db_terminated_exit_zero_fails :
    mysqlTermPod.container_statuses.map (fun c => c.state) = [CState.terminated 0] ∧
    (check_pods_ready_pods [mysqlTermPod]).2.2 = some "MySQL: Container terminated" :=
  ⟨rfl, rfl⟩

/-- C5 (amended): for a database or app pod that is neither running-ready
nor `Pending`, a terminated first container yields the failure reason
`"MySQL: Container terminated"` / `"WordPress: Container terminated"`
regardless of the exit code — the source never inspects the exit code of a
database or app container. -/
theorem db_app_terminated_always_fails (ec : Int) (rc : Nat) (rd : Bool) :
    (podContrib ⟨"mysql-0", "Succeeded", [⟨rd, rc, CState.terminated ec⟩]⟩).failure
      = some "MySQL: Container terminated" ∧
    (podContrib ⟨"wordpress-abc", "Succeeded", [⟨rd, rc, CState.terminated ec⟩]⟩).failure
      = some "WordPress: Container terminated" :=
  ⟨rfl, rfl⟩

/-- C9 (confirmed): when an exception is raised while marking the store
`DELETING` — before the uninstall call binds `output` — the handler's
`except` branch evaluates the unbound variable `output` and itself raises
(`NameError`) instead of returning the intended 500 body.  The store looked
up exists and is not `DELETED`, so the run reaches the marking step. -/
theorem delete_error_branch_unbound_output :
    exStore.status = "PROVISIONING" ∧
    delete_except_branch none = DeleteOutcome.unboundNameError ∧
    (delete_handler [exStore] "shop1-abcd1234" ⟨none, some "db session failure", (true, "")⟩ 3).2
      = DeleteOutcome.unboundNameError :=
  ⟨rfl, rfl, rfl⟩

/-- C4 (counterexample): the same two failing pods in the two possible
orders yield different failure reasons — with the database pod first the
reported reason is the app's, not the database's — so the verdict is
neither the first failure in the fixed role order database, app, setup-job,
nor independent of the input order. -/
theorem classifier_reason_depends_on_pod_order :
    (check_pods_ready_pods [mysqlFailPod, wpFailPod]).2.2
        = some "WordPress: CrashLoopBackOff (Restarts: 4)" ∧
    (check_pods_ready_pods [wpFailPod, mysqlFailPod]).2.2
        = some "MySQL: CrashLoopBackOff" :=
  ⟨rfl, rfl⟩

/-- C4 (amended): a failing role still forces the Failed verdict, but the
reported reason is that of the LAST pod in the input list whose
classification assigns a failure (each assignment overwrites the previous
one), so it depends on the order in which pods appear in the list. -/
theorem classifier_reason_last_failure_wins (xs : List Pod) (p : Pod) (ys : List Pod)
    (f : String) (hp : (podContrib p).failure = some f)
    (hys : ∀ q ∈ ys, (podContrib q).failure = none) :
    (check_pods_ready_pods (xs ++ p :: ys)).2.2 = some f := by
  show ((xs ++ p :: ys).foldl scanStep podScanInit).failure_reason = some f
  rw [scan_failure_foldl, List.foldl_append, List.foldl_cons]
  have hstep : overwriteFailure (xs.foldl overwriteFailure podScanInit.failure_reason) p
      = some f := by
    unfold overwriteFailure
    rw [hp]
  rw [hstep]
  exact foldl_overwrite_none ys hys (some f)

/-- C4 (witness): the amended theorem applied with the database pod first
and the app pod as the last failing pod. -/
theorem classifier_reason_last_failure_wins_witness :
    (check_pods_ready_pods ([mysqlFailPod] ++ wpFailPod :: [])).2.2
      = some "WordPress: CrashLoopBackOff (Restarts: 4)" :=
  classifier_reason_last_failure_wins [mysqlFailPod] wpFailPod []
    "WordPress: CrashLoopBackOff (Restarts: 4)" rfl (fun q hq => by cases hq)

/-- C6 (counterexample): a repository whose only record named `shop1` has
status `DELETED` still causes `create_store` with name `shop1` and
otherwise valid inputs to fail with the duplicate-name error — the
uniqueness check queries by name only, with no status filter. -/
theorem create_store_blocked_by_deleted_name :
    deletedStore.status = "DELETED" ∧ deletedStore.name = "shop1" ∧
    create_store [deletedStore] "shop1" "woocommerce" "admin" "pw" "a@x"
        "ef012345" "rootpw2" "dbpw2" 3
      = .error "Store with name 'shop1' already exists" :=
  ⟨rfl, rfl, rfl⟩

/-- C6 (amended): with valid inputs, `create_store` fails with the
duplicate-name error iff ANY existing row — whatever its status, `DELETED`
included — has the trimmed name; when no row has the name it inserts a new
`PROVISIONING` record. -/
theorem create_store_name_conflict_all_rows (repo : Repo)
    (name engine au ap ae uuid_hex8 p1 p2 : String) (now : Nat)
    (heng : engine = "woocommerce" ∨ engine = "medusa")
    (hname : pyStrip name ≠ "") (hau : pyStrip au ≠ "")
    (hap : pyStrip ap ≠ "") (hae : pyStrip ae ≠ "") :
    ((∃ s, findByName repo (pyStrip name) = some s) →
      create_store repo name engine au ap ae uuid_hex8 p1 p2 now
        = .error ("Store with name '" ++ pyStrip name ++ "' already exists")) ∧
    (findByName repo (pyStrip name) = none →
      ∃ st, create_store repo name engine au ap ae uuid_hex8 p1 p2 now
          = .ok (st, repo ++ [st])
        ∧ st.status = "PROVISIONING" ∧ st.name = pyStrip name) := by
  have h1 : (engine != "woocommerce" && engine != "medusa") = false := by
    rcases heng with he | he <;> subst he <;> rfl
  have h2 : (pyStrip name == "") = false := beq_eq_false_iff_ne.mpr hname
  have h3 : (pyStrip au == "") = false := beq_eq_false_iff_ne.mpr hau
  have h4 : (pyStrip ap == "") = false := beq_eq_false_iff_ne.mpr hap
  have h5 : (pyStrip ae == "") = false := beq_eq_false_iff_ne.mpr hae
  constructor
  · rintro ⟨s, hs⟩
    simp only [create_store, h1, h2, h3, h4, h5, Bool.false_eq_true, if_false, hs]
  · intro hnone
    simp only [create_store, h1, h2, h3, h4, h5, Bool.false_eq_true, if_false, hnone]
    exact ⟨_, rfl, rfl, rfl⟩

/-- C6 (witness): the amended theorem applied to the empty repository — the
creation succeeds and inserts a `PROVISIONING` record named `shop1`. -/
theorem create_store_name_conflict_all_rows_witness :
    ∃ st, create_store [] "shop1" "woocommerce" "admin" "pw" "a@x"
        "abcd1234" "rootpw" "dbpw" 0 = .ok (st, [] ++ [st])
      ∧ st.status = "PROVISIONING" ∧ st.name = pyStrip "shop1" :=
  (create_store_name_conflict_all_rows [] "shop1" "woocommerce" "admin" "pw" "a@x"
      "abcd1234" "rootpw" "dbpw" 0 (Or.inl rfl)
      (by decide) (by decide) (by decide) (by decide)).2 rfl

/-- C2 (code evaluated at the failing input): in a snapshot where the
database, app and setup-job roles all satisfy their success predicates but
the ingress read returns 404, `check_store_ready` returns
`(True, None, None)` — ready with no URL — and the reconciler thereupon
commits `READY` with `store_url` still null on that very poll iteration,
instead of the downgrade to in-progress the spec describes. -/
theorem ready_without_ingress_commits_ready :
    check_store_ready readyNoIngressEnv "store-shop1-abcd1234" "shop1-abcd1234-ingress"
      = .ok (true, none, none) ∧
    (provision_store cfg0 [exStore] "shop1-abcd1234" provEnvNoIngress 7).map
        (fun s => (s.status, s.store_url))
      = [("READY", none)] :=
  ⟨rfl, rfl⟩

/-- C8 (code evaluated at the failing input): when the namespace read fails
with a non-404 `ApiException`, `check_namespace_exists` re-raises, the
exception escapes `check_store_ready` and the readiness loop, and the
worker's task-levels handler commits `FAILED` with an unexpected-error
reason — the iteration does not surface as in-progress and polling stops. -/
theorem transient_namespace_error_commits_failed :
    check_namespace_exists (K8sResult.apiError "(500) internal")
      = .error "(500) internal" ∧
    (provision_store cfg0 [exStore] "shop1-abcd1234" provEnvApiErr 7).map
        (fun s => (s.status, s.failure_reason))
      = [("FAILED", some "Unexpected error during provisioning: (500) internal")] :=
  ⟨rfl, rfl⟩

/-- C7 (confirmed): a provisioning task whose store is absent, or whose
status at task start is anything but `PROVISIONING` (`READY`, `FAILED`,
`DELETING`, `DELETED`), returns without touching the repository: the
returned repository is the input one, every field of every record included;
in particular a task never moves a record out of `READY`. -/
theorem provision_store_frame (cfg : WorkerConfig) (repo : Repo) (store_id : String)
    (env : ProvisionEnv) (now : Nat)
    (h : ∀ store, findById repo store_id = some store → store.status ≠ "PROVISIONING") :
    provision_store cfg repo store_id env now = repo := by
  unfold provision_store
  cases hf : findById repo store_id with
  | none => rfl
  | some store =>
    have hs : (store.status != "PROVISIONING") = true := by
      simp only [bne_iff_ne, ne_eq]
      exact h store hf
    simp only [hs, if_true]

/-- C7 (witness): the frame theorem applied to a one-row repository whose
record is `READY`. -/
theorem provision_store_frame_witness :
    provision_store cfg0 [readyStore] "shop1-abcd1234" provEnvNoIngress 7 = [readyStore] :=
  provision_store_frame cfg0 [readyStore] "shop1-abcd1234" provEnvNoIngress 7
    (fun store hstore => by
      have h2 : readyStore = store := Option.some.inj hstore
      rw [← h2]
      decide)

/-- C10 (confirmed): on any poll iteration whose namespace read returns
404, `check_store_ready` reports the permanent failure reason
`"Namespace {ns} does not exist"`, and a provisioning task reaching that
iteration first (release present, timeout not yet hit) commits
`status = FAILED` with exactly that reason — a missing namespace is
terminal, not in-progress. -/
theorem missing_namespace_commits_failed (cfg : WorkerConfig) (repo : Repo)
    (store_id : String) (env : ProvisionEnv) (now : Nat) (store : Store)
    (h : findById repo store_id = some store)
    (hp : store.status = "PROVISIONING")
    (hh : env.helm_status.isSome = true)
    (hf : 0 < env.polls_before_timeout)
    (hns : (env.checks 0).namespace_read = K8sResult.notFound) :
    check_store_ready (env.checks 0) store.nspace (store.helm_release ++ "-ingress")
      = .ok (false, none, some ("Namespace " ++ store.nspace ++ " does not exist")) ∧
    findById (provision_store cfg repo store_id env now) store_id
      = some (applyStatusUpdate "FAILED"
          (some ("Namespace " ++ store.nspace ++ " does not exist")) none now store) ∧
    (applyStatusUpdate "FAILED"
        (some ("Namespace " ++ store.nspace ++ " does not exist")) none now store).status
      = "FAILED" ∧
    (applyStatusUpdate "FAILED"
        (some ("Namespace " ++ store.nspace ++ " does not exist")) none now store).failure_reason
      = some ("Namespace " ++ store.nspace ++ " does not exist") := by
  have hmsg : ("Namespace " ++ store.nspace ++ " does not exist") ≠ "" := by
    rw [String.append_assoc]
    exact append_ne_empty "Namespace " (store.nspace ++ " does not exist") (by decide)
  have htr : optTruthy (some ("Namespace " ++ store.nspace ++ " does not exist")) = true :=
    optTruthy_some_of_ne _ hmsg
  have hcsr : check_store_ready (env.checks 0) store.nspace (store.helm_release ++ "-ingress")
      = .ok (false, none, some ("Namespace " ++ store.nspace ++ " does not exist")) := by
    unfold check_store_ready check_namespace_exists
    rw [hns]
    rfl
  have hupd : findById (update_store_status repo store_id "FAILED"
        (some ("Namespace " ++ store.nspace ++ " does not exist")) none now).1 store_id
      = some (applyStatusUpdate "FAILED"
          (some ("Namespace " ++ store.nspace ++ " does not exist")) none now store) := by
    unfold update_store_status
    rw [h]
    have hmap := findById_map_update repo store_id
      (applyStatusUpdate "FAILED"
        (some ("Namespace " ++ store.nspace ++ " does not exist")) none now) (fun s => rfl)
    rw [h] at hmap
    exact hmap.trans rfl
  refine ⟨hcsr, ?_, rfl, ?_⟩
  · obtain ⟨hsv, hveq⟩ := Option.isSome_iff_exists.mp hh
    obtain ⟨n, hn⟩ : ∃ n, env.polls_before_timeout = n + 1 :=
      ⟨env.polls_before_timeout - 1, by omega⟩
    have hloop : readinessLoop cfg repo store_id store.nspace
        (store.helm_release ++ "-ingress") env.checks 0 env.polls_before_timeout now
        = .ok (update_store_status repo store_id "FAILED"
            (some ("Namespace " ++ store.nspace ++ " does not exist")) none now).1 := by
      rw [hn]
      unfold readinessLoop
      rw [hcsr]
      simp only [Bool.false_eq_true, if_false, htr, if_true]
    have hbne : (store.status != "PROVISIONING") = false := by
      rw [hp]
      rfl
    unfold provision_store
    simp only [h, hbne, Bool.false_eq_true, if_false, hveq, hloop]
    exact hupd
  · show (if optTruthy (some ("Namespace " ++ store.nspace ++ " does not exist")) = true
        then some ("Namespace " ++ store.nspace ++ " does not exist")
        else store.failure_reason)
      = some ("Namespace " ++ store.nspace ++ " does not exist")
    rw [htr, if_pos rfl]

/-- C10 (witness): the theorem applied to a concrete one-row repository and
an environment whose namespace read returns 404 at every iteration. -/
theorem missing_namespace_commits_failed_witness :
    findById (provision_store cfg0 [exStore] "shop1-abcd1234" provEnvNsMissing 7)
        "shop1-abcd1234"
      = some (applyStatusUpdate "FAILED"
          (some ("Namespace " ++ exStore.nspace ++ " does not exist")) none 7 exStore) :=
  (missing_namespace_commits_failed cfg0 [exStore] "shop1-abcd1234" provEnvNsMissing 7
      exStore rfl rfl rfl (by decide) rfl).2.1

end StorePlatform
